import Mathlib

/-
Verification of the streaming transport bridge repeated across the four MCP
tool backends (math, santa-clara, youtube-transcript, youtube-to-mp3).

Each Lean definition is a shallow embedding of the corresponding Python
definition in src/servers/<backend>/server.py, keeping the source's names
where Lean allows it.  Tool arguments are decoded JSON values; network-facing
collaborators (transcript fetch, video download, Google Drive) and the ambient
clock are modelled as unconstrained oracle functions, since their results
depend on the outside world.  The SSE transport and the RPC dispatch loop live
in the MCP SDK (not in this repository's sources); where a claim depends on
them they are modelled from the spec, and marked as such.
-/

set_option autoImplicit false

/-- JSON-like values as decoded by Python's `json` module: tool arguments,
schemas and envelope payloads are such values.  Python's `bool` is a subclass
of `int`; the embedding accounts for that wherever `isinstance(_, int)` is
translated. -/
inductive Value where
  | null
  | bool (b : Bool)
  | int (z : Int)
  | float (f : Float)
  | str (s : String)
  | list (elems : List Value)
  | dict (fields : List (String × Value))

/-- A decoded JSON object: an association list of string keys to values. -/
abbrev Args := List (String × Value)

/-- First value bound to key `k`, if any (Python `dict` lookup; tool-argument
dicts have unique keys). -/
def lookupField (fields : Args) (k : String) : Option Value :=
  (fields.find? (fun p => p.1 == k)).map (fun p => p.2)

/-- Python `d.get(k, dflt)`: the stored value when `k` is present, else `dflt`. -/
def pyGetD (args : Args) (k : String) (dflt : Value) : Value :=
  (lookupField args k).getD dflt

/-- Python `d.get(k)`: both an absent key and a stored JSON `null` give Python
`None`, which `Value.null` models. -/
def pyGet (args : Args) (k : String) : Value :=
  pyGetD args k .null

/-- Python truthiness of a decoded JSON value (`if not x`). -/
def pyTruthy : Value → Bool
  | .null => false
  | .bool b => b
  | .int z => decide (z ≠ 0)
  | .float f => !(f == 0.0)
  | .str s => decide (s ≠ "")
  | .list xs => !xs.isEmpty
  | .dict kvs => !kvs.isEmpty

/-- Python `v == some_string_literal`: true only for an equal `str` value. -/
def isStr (v : Value) (s : String) : Bool :=
  match v with
  | .str t => t == s
  | _ => false

/-- Python `v is None`. -/
def isNull : Value → Bool
  | .null => true
  | _ => false

/-- Python `isinstance(v, int)`: true for ints and for bools (`bool` is a
subclass of `int` in Python). -/
def isIntInstance : Value → Bool
  | .int _ => true
  | .bool _ => true
  | _ => false

/-- The integer a Python int-instance denotes (`True` is 1, `False` is 0).
Only applied after `isIntInstance` holds. -/
def valueAsInt : Value → Int
  | .int z => z
  | .bool b => if b then 1 else 0
  | _ => 0

/-- Python numeric coercion to float for arithmetic (ints, floats and bools
are numbers; other values have no float value). -/
def valueAsFloat? : Value → Option Float
  | .int z => some (Float.ofInt z)
  | .float f => some f
  | .bool b => some (if b then 1.0 else 0.0)
  | _ => none

/-- Lean's rendering of a float.  Python renders e.g. `2.5` where Lean renders
`2.500000`; no claim depends on a float rendering, so Lean's is used. -/
def pyFloatStr (f : Float) : String := toString f

/-- Python f-string rendering of a decoded JSON value (`str(v)`).  The list and
dict renderings are placeholders: no claim depends on them. -/
def pyStr : Value → String
  | .null => "None"
  | .bool true => "True"
  | .bool false => "False"
  | .int z => toString z
  | .float f => pyFloatStr f
  | .str s => s
  | .list _ => "[...]"
  | .dict _ => "\x7b...\x7d"

/-- The characters Python's default `str.split()` splits on. -/
def pyIsSpace (c : Char) : Bool :=
  c = ' ' || c = '\t' || c = '\n' || c = '\r' || c = '\x0b' || c = '\x0c'

/-- Helper for `pySplit`: walk the characters, accumulating the current word
in reverse; whitespace finishes a word, and empty words are dropped. -/
def splitWsAux : List Char → List Char → List String
  | [], acc => if acc.isEmpty then [] else [String.mk acc.reverse]
  | c :: cs, acc =>
    if pyIsSpace c then
      if acc.isEmpty then splitWsAux cs [] else String.mk acc.reverse :: splitWsAux cs []
    else splitWsAux cs (c :: acc)

/-- Python `s.split()` with no separator: split on runs of whitespace and drop
empty pieces. -/
def pySplit (s : String) : List String :=
  splitWsAux s.data []

/-- Python `s.lower()` (character-wise lowercasing; ASCII is all the gate
compares, since the result is only tested against `"bearer"`). -/
def pyLower (s : String) : String :=
  String.mk (s.data.map Char.toLower)

/-- Outcome of the auth gate: the verified token, or an HTTP error status with
its detail message (FastAPI `HTTPException`). -/
inductive AuthResult where
  | ok (token : String)
  | httpError (status : Nat) (detail : String)
deriving DecidableEq

/-- From `verify_auth_header` in src/servers/math/server.py lines 172-187; the
same function appears verbatim in all four backends.  `authHeader` is the
request's `authorization` header (`none` when absent, which Python reads as
`""` via `headers.get("authorization", "")`); `apiKey` is the process-wide
`MCP_API_KEY`. -/
def verify_auth_header (authHeader : Option String) (apiKey : String) : AuthResult :=
  let auth_header := authHeader.getD ""
  if auth_header = "" then
    .httpError 401 "Missing Authorization header"
  else
    match pySplit auth_header with
    | [scheme, token] =>
      if pyLower scheme ≠ "bearer" then
        .httpError 401 "Invalid Authorization header"
      else if token ≠ apiKey then
        .httpError 403 "Invalid API key"
      else
        .ok token
    | _ => .httpError 401 "Invalid Authorization header"

/-- The spec's phrase "of the form `Bearer <token>`": an Authorization header
value that splits into exactly a scheme and a token, the scheme matching
`bearer` case-insensitively.  Written from the spec's words, to compare the
gate's behaviour against. -/
def wellFormedBearer (authHeader : Option String) : Prop :=
  ∃ s t, pySplit (authHeader.getD "") = [s, t] ∧ pyLower s = "bearer"

/-- One content item of a tool result: `TextContent(type="text", text=...)`.
The source's field `type` is a Lean keyword, so it is named `kind` here. -/
structure TextContent where
  kind : String
  text : String
deriving DecidableEq

/-- Message produced when Python raises a `TypeError` for non-numeric operands
reaching an arithmetic operation; no claim depends on its wording. -/
def typeErrorMsg : String := "unsupported operand type(s)"

/-- From `calculate` in src/servers/math/server.py lines 33-52.  Arithmetic is
modelled over `Float` per the source's annotations (`a: float, b: float`);
non-numeric operands make Python raise a `TypeError` inside the operation,
modelled as an error result.  (Python would keep an int result for int inputs
of add/subtract/multiply/power; that int/float rendering distinction is not
tracked — no claim concerns this branch.)  `operation` is the raw decoded
value: Python compares it against the operation names with `==`, which is
false for every non-string, falling through to the unknown-operation error. -/
def calculate (operation : Value) (a : Value) (b : Value) : Except String Float :=
  if isStr operation "add" then
    match valueAsFloat? a, valueAsFloat? b with
    | some x, some y => .ok (x + y)
    | _, _ => .error typeErrorMsg
  else if isStr operation "subtract" then
    match valueAsFloat? a, valueAsFloat? b with
    | some x, some y => .ok (x - y)
    | _, _ => .error typeErrorMsg
  else if isStr operation "multiply" then
    match valueAsFloat? a, valueAsFloat? b with
    | some x, some y => .ok (x * y)
    | _, _ => .error typeErrorMsg
  else if isStr operation "divide" then
    match valueAsFloat? a, valueAsFloat? b with
    | some x, some y => if y == 0.0 then .error "Cannot divide by zero" else .ok (x / y)
    | _, _ => .error typeErrorMsg
  else if isStr operation "power" then
    match valueAsFloat? a, valueAsFloat? b with
    | some x, some y => .ok (Float.pow x y)
    | _, _ => .error typeErrorMsg
  else if isStr operation "sqrt" then
    match valueAsFloat? a with
    | some x => if x < 0 then .error "Cannot take square root of negative number" else .ok (Float.sqrt x)
    | none => .error typeErrorMsg
  else .error ("Unknown operation: " ++ pyStr operation)

/-- The loop `result = 1; for i in range(2, n + 1): result *= i` in `factorial`
(src/servers/math/server.py lines 65-67): `List.range' 2 (m - 1)` is
`[2, ..., m]`, the iteration space of `range(2, n + 1)`. -/
def factorialLoop (m : Nat) : Nat :=
  (List.range' 2 (m - 1)).foldl (fun r i => r * i) 1

/-- From `factorial` in src/servers/math/server.py lines 55-68.  It is called
only after the call site's `isinstance(n, int)` check, so the argument is the
denoted integer; the function's own redundant `isinstance` re-check is
vacuously true here. -/
def factorial (n : Int) : Except String Nat :=
  if n < 0 then .error "Factorial requires a non-negative integer"
  else if n > 100 then .error "Factorial input must be <= 100"
  else if n = 0 ∨ n = 1 then .ok 1
  else .ok (factorialLoop n.toNat)

/-- The `symbol_map.get(operation, operation)` rendering in the calculate
response (src/servers/math/server.py lines 137-138); `operation` is a string
by the time this runs (it matched one of the four binary operation names). -/
def symbolFor (operation : Value) : String :=
  if isStr operation "add" then "+"
  else if isStr operation "subtract" then "-"
  else if isStr operation "multiply" then "×"
  else if isStr operation "divide" then "÷"
  else pyStr operation

/-- From `call_tool` in src/servers/math/server.py lines 115-157.  Exceptions
(`raise ValueError(...)`) are modelled as `.error`; this backend has no
try/except of its own, so errors propagate to the dispatcher unchanged. -/
def callToolMath (name : String) (args : Args) : Except String (List TextContent) :=
  if name = "calculate" then
    let operation := pyGet args "operation"
    let a := pyGet args "a"
    let b := pyGet args "b"
    if isNull operation || isNull a then .error "operation and a are required"
    else if !(isStr operation "sqrt") && isNull b then
      .error ("operation \x27" ++ pyStr operation ++ "\x27 requires parameter \x27b\x27")
    else
      match calculate operation a b with
      | .error e => .error e
      | .ok result =>
        let text :=
          if isStr operation "sqrt" then "√" ++ pyStr a ++ " = " ++ pyFloatStr result
          else if isStr operation "power" then
            pyStr a ++ "^" ++ pyStr b ++ " = " ++ pyFloatStr result
          else
            pyStr a ++ " " ++ symbolFor operation ++ " " ++ pyStr b ++ " = " ++ pyFloatStr result
        .ok [⟨"text", text⟩]
  else if name = "factorial" then
    let n := pyGet args "n"
    if isNull n then .error "n is required"
    else if !isIntInstance n then .error "n must be an integer"
    else
      match factorial (valueAsInt n) with
      | .error e => .error e
      | .ok result => .ok [⟨"text", "Factorial of " ++ pyStr n ++ " = " ++ toString result⟩]
  else .error ("Unknown tool: " ++ name)

/-- One installment record of the santa-clara `PROPERTY_DATABASE` entry
(src/servers/santa-clara/server.py lines 46-63).  The source stores the dollar
amounts as two-decimal float literals; they are modelled as exact cent counts,
and `fmtMoney` reproduces Python's `:,.2f` formatting on them. -/
structure Installment where
  tax_amount : Int
  additional_charges : Int
  amount_paid : Int
  balance_due : Int
  pay_by_date : String
  status : String
  last_payment_date : String

/-- The santa-clara property record (src/servers/santa-clara/server.py lines
33-67).  The nested `owner` dict is flattened into `owner_name`/`owner_type`. -/
structure PropertyData where
  apn : String
  apn_suffix : String
  address : String
  owner_name : String
  owner_type : String
  property_type : String
  tax_rate_area : String
  tax_year : String
  annual_tax_bill : Int
  installment_1 : Installment
  installment_2 : Installment
  county : String
  parcel_number : String
  retrieved_at : String

/-- The single `PROPERTY_DATABASE` entry for APN 288-13-033, with
`retrieved_at` stamped from the ambient clock as `generate_property_data`
does. -/
def propertyRecord (now : String) : PropertyData where
  apn := "288-13-033"
  apn_suffix := "00"
  address := "1373 CRONWELL DR CAMPBELL CA 95008"
  owner_name := "Property Owner Name"
  owner_type := "individual"
  property_type := "residential"
  tax_rate_area := "010-025"
  tax_year := "2025/2026"
  annual_tax_bill := 369540
  installment_1 :=
    { tax_amount := 184770, additional_charges := 0, amount_paid := 184770
      balance_due := 0, pay_by_date := "12/10/2025", status := "PAID"
      last_payment_date := "10/09/2025" }
  installment_2 :=
    { tax_amount := 184770, additional_charges := 0, amount_paid := 0
      balance_due := 184770, pay_by_date := "04/10/2026", status := "DUE"
      last_payment_date := "N/A" }
  county := "Santa Clara"
  parcel_number := "288-13-033"
  retrieved_at := now

/-- Insert a comma every three digits from the right into a digit string
(the thousands separator of Python's `:,.2f` format). -/
def insertThousandsSep (s : String) : String :=
  let n := s.length
  (s.data.foldl
    (fun (acc : String × Nat) c =>
      let out := if acc.2 ≠ 0 ∧ (n - acc.2) % 3 = 0 then (acc.1.push ',').push c else acc.1.push c
      (out, acc.2 + 1))
    ("", 0)).1

/-- Python `f"$\x7bcents/100:,.2f\x7d"` on an exact nonnegative cent count:
grouped dollars, a dot, and two cent digits. -/
def fmtMoney (cents : Int) : String :=
  let d := cents / 100
  let r := cents % 100
  insertThousandsSep (toString d) ++ "." ++ (if r < 10 then "0" ++ toString r else toString r)

/-- From `generate_property_data` in src/servers/santa-clara/server.py lines
70-79: the one known APN returns the database record stamped with
`datetime.now()`; every other key raises the not-found `ValueError`.  A
non-string `apn` is simply not a key of the dict, taking the same path. -/
def generate_property_data (apn : Value) (now : String) : Except String PropertyData :=
  if isStr apn "288-13-033" then .ok (propertyRecord now)
  else .error ("APN " ++ pyStr apn ++
    " not found in database. This is a demonstration server with limited property data.")

/-- One installment block of the santa-clara response text
(src/servers/santa-clara/server.py lines 123-137). -/
def formatInstallment (label : String) (i : Installment) : String :=
  label ++ ":\n  Amount: $" ++ fmtMoney i.tax_amount ++
  "\n  Status: " ++ i.status ++
  "\n  Paid: $" ++ fmtMoney i.amount_paid ++
  "\n  Balance Due: $" ++ fmtMoney i.balance_due ++
  "\n  Pay By: " ++ i.pay_by_date ++
  "\n  Last Payment: " ++ i.last_payment_date

/-- The triple-quoted `text_response` of the santa-clara `call_tool`
(src/servers/santa-clara/server.py lines 115-137). -/
def formatPropertyText (apn : Value) (d : PropertyData) : String :=
  "Property Information for APN: " ++ pyStr apn ++
  "\n\nAddress: " ++ d.address ++
  "\nTax Rate Area: " ++ d.tax_rate_area ++
  "\nProperty Type: " ++ d.property_type ++
  "\n\n2025/2026 Annual Tax Bill: $" ++ fmtMoney d.annual_tax_bill ++
  "\n\n" ++ formatInstallment "Installment 1" d.installment_1 ++
  "\n\n" ++ formatInstallment "Installment 2" d.installment_2

/-- From `call_tool` in src/servers/santa-clara/server.py lines 103-146.
`now` is the ambient `datetime.now().isoformat()` read when the known record
is fetched (it is stamped into the record but never rendered). -/
def callToolSantaClara (now : String) (name : String) (args : Args) :
    Except String (List TextContent) :=
  if name = "get_property_info" then
    let apn := pyGet args "apn"
    if !pyTruthy apn then .error "APN is required"
    else
      match generate_property_data apn now with
      | .error e => .error e
      | .ok data => .ok [⟨"text", formatPropertyText apn data⟩]
  else .error ("Unknown tool: " ++ name)

/-- Result of `mcp_logic.youtube_to_mp3` as consumed by the call site
(src/servers/youtube-to-mp3/server.py lines 113-121): the produced content
text (`result["content"][0]["text"]`) and the local file path
(`result["data"]["file_path"]`). -/
structure YtmResult where
  text : String
  file_path : String

/-- Result of `google_drive.upload_to_drive` as consumed by the call site
(src/servers/youtube-to-mp3/server.py lines 136-148). -/
structure DriveResult where
  file_id : String
  web_view_link : String

/-- External collaborators and ambient process state.  The transcript fetch,
video download and Google Drive functions perform network and file I/O (in
src they call the YouTube and Drive APIs), so their results are not functions
of their arguments alone; each is modelled as an arbitrary function of the
arguments the call site passes, and theorems quantify over the whole record.
`get_transcript` and `list_available_languages` yield the
`result["content"][0]["text"]` string the call sites extract (in src,
mcp_logic always builds that one-element shape). -/
structure Oracles where
  get_transcript : Value → Value → Bool → Except String String
  list_available_languages : Value → Except String String
  youtube_to_mp3 : Value → Value → String → Value → Value → Except String YtmResult
  get_or_create_folder : Value → Except String String
  upload_to_drive : String → String → Except String DriveResult
  is_drive_configured : Bool
  datetime_now : String
  downloads_dir : String

/-- From `call_tool` in src/servers/youtube-transcript/server.py lines 73-95.
The whole body runs in a try/except that re-raises any exception as
`ValueError(f"Error: ...")`.  Line 81 hard-codes `include_timestamps = False`
("Always disable timestamps - ignore user input"), so the argument of that
name is never read. -/
def callToolYtTranscript (o : Oracles) (name : String) (args : Args) :
    Except String (List TextContent) :=
  let body : Except String (List TextContent) :=
    if name = "get_transcript" then
      let video_url := pyGet args "video_url"
      let language := pyGetD args "language" (.str "en")
      let include_timestamps := false
      match o.get_transcript video_url language include_timestamps with
      | .ok text => .ok [⟨"text", text⟩]
      | .error e => .error e
    else if name = "list_available_languages" then
      match o.list_available_languages (pyGet args "video_url") with
      | .ok text => .ok [⟨"text", text⟩]
      | .error e => .error e
    else .error ("Unknown tool: " ++ name)
  match body with
  | .ok r => .ok r
  | .error e => .error ("Error: " ++ e)

/-- The `valid_bitrates` membership test of src/servers/youtube-to-mp3/server.py
lines 97-99; Python `in` over a list of strings is false for every non-string
value. -/
def isValidBitrate (v : Value) : Bool :=
  match v with
  | .str s => ["128k", "192k", "256k", "320k"].contains s
  | _ => false

/-- The inner Google-Drive try/except of src/servers/youtube-to-mp3/server.py
lines 125-158: folder resolution and upload; any exception is caught and
rendered into the appended text, never re-raised. -/
def driveUploadText (o : Oracles) (folder_name : Value) (file_path : String) : String :=
  match o.get_or_create_folder folder_name with
  | .error e =>
    "\n\n☁️ Google Drive Upload:\n- Status: ❌ Upload failed\n- Error: " ++ e
  | .ok folder_id =>
    match o.upload_to_drive file_path folder_id with
    | .error e =>
      "\n\n☁️ Google Drive Upload:\n- Status: ❌ Upload failed\n- Error: " ++ e
    | .ok dr =>
      "\n\n☁️ Google Drive Upload:\n- File ID: " ++ dr.file_id ++
      "\n- View Link: " ++ dr.web_view_link ++
      "\n- Folder: " ++ pyStr folder_name ++
      "\n- Status: ✅ Upload successful"

/-- From `call_tool` in src/servers/youtube-to-mp3/server.py lines 77-172.
The whole body runs in a try/except that re-raises any exception as a
`ValueError` carrying the troubleshooting text. -/
def callToolYtToMp3 (o : Oracles) (name : String) (args : Args) :
    Except String (List TextContent) :=
  let body : Except String String :=
    if name = "youtube_to_mp3" then
      let video_url := pyGet args "video_url"
      let bitrate := pyGetD args "bitrate" (.str "192k")
      let preserve_metadata := pyGetD args "preserve_metadata" (.bool true)
      let output_filename := pyGetD args "output_filename" (.str "")
      let upload_to_drive_flag := pyGetD args "upload_to_drive" (.bool false)
      let drive_folder := pyGetD args "drive_folder" (.str "")
      if !pyTruthy video_url then .error "video_url is required"
      else if !isValidBitrate bitrate then
        .error "Invalid bitrate. Must be one of: 128k, 192k, 256k, 320k"
      else if pyTruthy upload_to_drive_flag && !o.is_drive_configured then
        .error ("Google Drive upload requested but credentials not configured.\n" ++
          "Please set GOOGLE_SERVICE_ACCOUNT_JSON or GOOGLE_DRIVE_CREDENTIALS_JSON environment variable.")
      else
        match o.youtube_to_mp3 video_url bitrate o.downloads_dir preserve_metadata output_filename with
        | .error e => .error e
        | .ok r =>
          if pyTruthy upload_to_drive_flag then
            let folder_name := if pyTruthy drive_folder then drive_folder else .str "MCP-YouTube-to-MP3"
            .ok (r.text ++ driveUploadText o folder_name r.file_path)
          else .ok r.text
    else .error ("Unknown tool: " ++ name)
  match body with
  | .ok text => .ok [⟨"text", text⟩]
  | .error e =>
    .error ("❌ Error: " ++ e ++
      "\n\nTroubleshooting:\n- Verify the YouTube URL is correct\n- Check if video is public (not private/deleted)\n- Ensure video has not been region-locked\n- Try a different video to test\n")

/-- The four backends of the repository. -/
inductive Backend where
  | math
  | santaClara
  | ytTranscript
  | ytToMp3
deriving DecidableEq

/-- One declared tool: `Tool(name=..., description=..., inputSchema=...)`. -/
structure Tool where
  name : String
  description : String
  inputSchema : Value

/-- The static catalogs returned by each backend's `list_tools` handler
(math server.py lines 71-112, santa-clara lines 82-100, youtube-transcript
lines 29-71, youtube-to-mp3 lines 31-75).  Each handler's body is a single
constant `return [...]`: it reads no argument, no session and no mutable
state, so the embedding is a function of the backend alone. -/
def list_tools (b : Backend) : List Tool :=
  match b with
  | .math =>
    [ { name := "calculate"
        description := "Perform mathematical calculations (add, subtract, multiply, divide, power, sqrt)"
        inputSchema := .dict
          [ ("type", .str "object")
          , ("properties", .dict
              [ ("operation", .dict
                  [ ("type", .str "string")
                  , ("enum", .list [.str "add", .str "subtract", .str "multiply", .str "divide", .str "power", .str "sqrt"])
                  , ("description", .str "The mathematical operation to perform") ])
              , ("a", .dict
                  [ ("type", .str "number")
                  , ("description", .str "First number (required for all operations)") ])
              , ("b", .dict
                  [ ("type", .str "number")
                  , ("description", .str "Second number (required for all operations except sqrt)") ]) ])
          , ("required", .list [.str "operation", .str "a"]) ] }
    , { name := "factorial"
        description := "Calculate factorial of a number (0-100)"
        inputSchema := .dict
          [ ("type", .str "object")
          , ("properties", .dict
              [ ("n", .dict
                  [ ("type", .str "integer")
                  , ("description", .str "The number to calculate factorial for (0-100)") ]) ])
          , ("required", .list [.str "n"]) ] } ]
  | .santaClara =>
    [ { name := "get_property_info"
        description := "Get property information by APN (Assessor\x27s Parcel Number)"
        inputSchema := .dict
          [ ("type", .str "object")
          , ("properties", .dict
              [ ("apn", .dict
                  [ ("type", .str "string")
                  , ("description", .str "Assessor\x27s Parcel Number (e.g., 123-456-789)") ]) ])
          , ("required", .list [.str "apn"]) ] } ]
  | .ytTranscript =>
    [ { name := "get_transcript"
        description := "Get the transcript/captions of a YouTube video"
        inputSchema := .dict
          [ ("type", .str "object")
          , ("properties", .dict
              [ ("video_url", .dict
                  [ ("type", .str "string")
                  , ("description", .str "YouTube video URL (e.g., https://www.youtube.com/watch?v=VIDEO_ID) or video ID") ])
              , ("language", .dict
                  [ ("type", .str "string")
                  , ("description", .str "Language code (e.g., \x27en\x27, \x27es\x27, \x27fr\x27). Defaults to \x27en\x27")
                  , ("default", .str "en") ])
              , ("include_timestamps", .dict
                  [ ("type", .str "boolean")
                  , ("description", .str "Include timestamps in the output (default: false)")
                  , ("default", .bool false) ]) ])
          , ("required", .list [.str "video_url"]) ] }
    , { name := "list_available_languages"
        description := "List available transcript languages for a YouTube video"
        inputSchema := .dict
          [ ("type", .str "object")
          , ("properties", .dict
              [ ("video_url", .dict
                  [ ("type", .str "string")
                  , ("description", .str "YouTube video URL or video ID") ]) ])
          , ("required", .list [.str "video_url"]) ] } ]
  | .ytToMp3 =>
    [ { name := "youtube_to_mp3"
        description := "Download YouTube video and convert to MP3 with metadata preservation (ID3 tags, album art). Optionally upload to Google Drive. ⚠️ Legal Notice: Use only with permission - respect copyright and YouTube ToS. Recommended for: your own videos, public domain content, Creative Commons licensed content."
        inputSchema := .dict
          [ ("type", .str "object")
          , ("properties", .dict
              [ ("video_url", .dict
                  [ ("type", .str "string")
                  , ("description", .str "YouTube video URL (e.g., https://www.youtube.com/watch?v=VIDEO_ID) or video ID") ])
              , ("bitrate", .dict
                  [ ("type", .str "string")
                  , ("enum", .list [.str "128k", .str "192k", .str "256k", .str "320k"])
                  , ("description", .str "Audio bitrate. 128k=low quality/small file, 192k=standard (default), 256k=high quality, 320k=maximum quality/large file")
                  , ("default", .str "192k") ])
              , ("preserve_metadata", .dict
                  [ ("type", .str "boolean")
                  , ("description", .str "Embed ID3 tags (title, artist, album, year, description) and album art (thumbnail) into MP3 file")
                  , ("default", .bool true) ])
              , ("output_filename", .dict
                  [ ("type", .str "string")
                  , ("description", .str "Custom output filename (optional, defaults to video title). Do not include .mp3 extension")
                  , ("default", .str "") ])
              , ("upload_to_drive", .dict
                  [ ("type", .str "boolean")
                  , ("description", .str "Upload MP3 file to Google Drive after conversion. Requires Google Drive credentials to be configured.")
                  , ("default", .bool false) ])
              , ("drive_folder", .dict
                  [ ("type", .str "string")
                  , ("description", .str "Google Drive folder name to upload to (optional, creates if doesn\x27t exist, defaults to root)")
                  , ("default", .str "") ]) ])
          , ("required", .list [.str "video_url"]) ] } ]

/-- Each backend's `call_tool` handler.  The math backend uses no external
collaborator; santa-clara only reads the ambient clock. -/
def call_tool (b : Backend) (o : Oracles) (name : String) (args : Args) :
    Except String (List TextContent) :=
  match b with
  | .math => callToolMath name args
  | .santaClara => callToolSantaClara o.datetime_now name args
  | .ytTranscript => callToolYtTranscript o name args
  | .ytToMp3 => callToolYtToMp3 o name args

/-- An inbound RPC envelope: method name, correlation id, and — for
`call_tool` — the requested tool name and arguments (spec §3: "method name,
parameters (opaque mapping), and a correlation id supplied by the client"). -/
structure Envelope where
  method : String
  name : String
  arguments : Args
  id : Int

/-- One unit of the server-to-client stream: the initial session-metadata
event, or an outbound result/error envelope addressed by correlation id
(spec §4.3, §4.5, glossary "Stream event"). -/
inductive OutEvent where
  | endpointEvent (submissionPath : String)
  | resultEnvelope (id : Int) (result : Value)
  | errorEnvelope (id : Int) (message : String)

/-- Wire form of one declared tool in a `list_tools` response (spec §6:
"sequence of \x7bname, description, input_schema\x7d"). -/
def toolToValue (t : Tool) : Value :=
  .dict [("name", .str t.name), ("description", .str t.description), ("input_schema", t.inputSchema)]

/-- Wire form of a backend's whole catalog. -/
def catalogValue (b : Backend) : Value :=
  .list ((list_tools b).map toolToValue)

/-- Wire form of a `call_tool` result's content list. -/
def contentValue (content : List TextContent) : Value :=
  .list (content.map (fun c => .dict [("type", .str c.kind), ("text", .str c.text)]))

/-- Modelled from the spec: the RPC Dispatcher's handling of one inbound
envelope (§4.5).  The dispatch loop itself lives in the MCP SDK
(`Server.run`), not under src/; per §4.5 it resolves `list_tools` and
`call_tool` against the collaborator, wraps a success into a response
envelope carrying the original correlation id, and catches any collaborator
exception, converting it into an error envelope with the same id.  The
`call_tool` embeddings it invokes are translated from src. -/
def dispatchOne (b : Backend) (o : Oracles) (e : Envelope) : OutEvent :=
  if e.method = "list_tools" then .resultEnvelope e.id (catalogValue b)
  else if e.method = "call_tool" then
    match call_tool b o e.name e.arguments with
    | .ok content => .resultEnvelope e.id (contentValue content)
    | .error msg => .errorEnvelope e.id msg
  else .errorEnvelope e.id ("Unknown method: " ++ e.method)

/-- Modelled from the spec: the per-session dispatch loop (§4.5), consuming
the session's inbound envelopes strictly first-in-first-out and producing one
outbound event per envelope. -/
def dispatchLoop (b : Backend) (o : Oracles) (inbound : List Envelope) : List OutEvent :=
  inbound.map (dispatchOne b o)

/-- Whether a backend's `sse_stream` handler ever starts the RPC dispatch
loop, read off each handler's body: santa-clara (server.py lines 186-203) and
youtube-to-mp3 (lines 210-228) call `server.run(read_stream, write_stream,
...)` inside `connect_sse`; the math (lines 196-209) and youtube-transcript
(lines 133-146) handlers instead execute `await sse` — awaiting the
`(read_stream, write_stream)` tuple itself, a `TypeError` at runtime — and
never invoke `server.run`, so no dispatcher consumes the session's inbound
messages. -/
def sse_runs_dispatcher : Backend → Bool
  | .math => false
  | .santaClara => true
  | .ytTranscript => false
  | .ytToMp3 => true

/-- Modelled from the spec: the stream of events a client sees on one
authenticated `/sse` session that receives `inbound` POSTed envelopes and is
then closed (§4.3: the initial endpoint event announcing the submission path,
then one forwarded event per dispatched message).  Which backends actually
run the dispatch part is read off the source via `sse_runs_dispatcher`. -/
def sseStreamEvents (b : Backend) (o : Oracles) (submissionPath : String)
    (inbound : List Envelope) : List OutEvent :=
  .endpointEvent submissionPath ::
    (if sse_runs_dispatcher b then dispatchLoop b o inbound else [])

/-- Outcome of one HTTP request against an endpoint handler: rejected by the
auth gate with an HTTP error, or handed to the shared SSE transport's
session logic (`connect_sse` / `handle_post_message`). -/
inductive HttpOutcome where
  | rejected (status : Nat) (detail : String)
  | reachedSessionLogic
deriving DecidableEq

/-- Run the continuation only when the auth gate accepts (the `await
verify_auth_header(request)` line: an `HTTPException` aborts the handler). -/
def gateThen (r : AuthResult) (k : HttpOutcome) : HttpOutcome :=
  match r with
  | .httpError s d => .rejected s d
  | .ok _ => k

/-- The `GET /sse` handlers: all four backends call `verify_auth_header`
before entering `connect_sse` (math server.py lines 197-209, santa-clara
186-203, youtube-transcript 133-146, youtube-to-mp3 210-228). -/
def sse_endpoint (b : Backend) (apiKey : String) (authHeader : Option String) : HttpOutcome :=
  match b with
  | _ => gateThen (verify_auth_header authHeader apiKey) .reachedSessionLogic

/-- The `POST /messages` handlers.  math (server.py lines 213-224) and
youtube-transcript (lines 149-161) call `verify_auth_header` before
delegating to `sse_transport.handle_post_message`; santa-clara (lines
206-212) and youtube-to-mp3 (lines 231-237) mount a raw ASGI
`messages_endpoint` that calls `handle_post_message` directly, with no auth
check at all. -/
def messages_endpoint (b : Backend) (apiKey : String) (authHeader : Option String) : HttpOutcome :=
  match b with
  | .math => gateThen (verify_auth_header authHeader apiKey) .reachedSessionLogic
  | .ytTranscript => gateThen (verify_auth_header authHeader apiKey) .reachedSessionLogic
  | .santaClara => .reachedSessionLogic
  | .ytToMp3 => .reachedSessionLogic

/-- The JSON body of `GET /health`.  The youtube-to-mp3 backend adds a
`google_drive_configured` field; the others return only the three common
fields. -/
structure HealthResponse where
  status : String
  service : String
  api_key_configured : Bool
  google_drive_configured : Option Bool
deriving DecidableEq

/-- The `GET /health` handlers (math server.py lines 227-234, santa-clara
215-222, youtube-transcript 164-171, youtube-to-mp3 240-248).  None of them
calls `verify_auth_header` or reads the request at all — `authHeader` is
deliberately unused, which is what the no-auth theorems state.  `apiKey` is
the process-wide `MCP_API_KEY` (the `MCP_API_KEY` env var when set, else the
documented default `"default-api-key"`). -/
def health_check (b : Backend) (o : Oracles) (apiKey : String)
    (authHeader : Option String) : HealthResponse :=
  match b with
  | .math => ⟨"healthy", "math", !(apiKey == "default-api-key"), none⟩
  | .santaClara => ⟨"healthy", "santa-clara", !(apiKey == "default-api-key"), none⟩
  | .ytTranscript => ⟨"healthy", "youtube-transcript", !(apiKey == "default-api-key"), none⟩
  | .ytToMp3 => ⟨"healthy", "youtube-to-mp3", !(apiKey == "default-api-key"), some o.is_drive_configured⟩

/-- A concrete oracle instance, used only to evaluate the model at specific
inputs (witnesses and counterexamples): every network call fails, Drive is
unconfigured, and the clock and download directory are fixed. -/
def defaultOracles : Oracles where
  get_transcript := fun _ _ _ => .error "network unavailable"
  list_available_languages := fun _ => .error "network unavailable"
  youtube_to_mp3 := fun _ _ _ _ _ => .error "network unavailable"
  get_or_create_folder := fun _ => .error "network unavailable"
  upload_to_drive := fun _ _ => .error "network unavailable"
  is_drive_configured := false
  datetime_now := "2026-10-12T00:00:00"
  downloads_dir := "/app/downloads"

/-- The substring relation used to state that an error message identifies a
tool name: `sub` occurs verbatim inside `msg`. -/
def containsSubstr (msg sub : String) : Prop :=
  ∃ pre post, msg = pre ++ sub ++ post


/-- The schema entry a JSON-schema object declares for parameter `prop`:
the value under `properties`/`prop`. -/
def schemaProp (schema : Value) (prop : String) : Option Value :=
  match schema with
  | .dict fields =>
    match lookupField fields "properties" with
    | some (.dict props) => lookupField props prop
    | _ => none
  | _ => none

/-- A tool's input schema advertises `prop` as a supported boolean
parameter. -/
def advertisesBoolParam (t : Tool) (prop : String) : Prop :=
  ∃ d, schemaProp t.inputSchema prop = some (.dict d) ∧
    lookupField d "type" = some (.str "boolean")

/-- Auxiliary: the split of the empty header is empty. -/
lemma pySplit_empty : pySplit "" = [] := rfl

/-- Auxiliary: on a two-part header whose scheme lowercases to `bearer`, the
gate compares the token against the credential: a match is accepted. -/
lemma verify_ok_of (hdr key s t : String)
    (hq : pySplit hdr = [s, t]) (hb : pyLower s = "bearer") (ht : t = key) :
    verify_auth_header (some hdr) key = .ok t := by
  have h0 : ¬ hdr = "" := by
    intro h
    rw [h, pySplit_empty] at hq
    exact List.noConfusion hq
  simp only [verify_auth_header, Option.getD_some]
  rw [if_neg h0, hq]
  simp [hb, ht]

/-- Auxiliary: on a two-part bearer header whose token differs from the
credential, the gate answers 403. -/
lemma verify_403_of (hdr key s t : String)
    (hq : pySplit hdr = [s, t]) (hb : pyLower s = "bearer") (ht : t ≠ key) :
    verify_auth_header (some hdr) key = .httpError 403 "Invalid API key" := by
  have h0 : ¬ hdr = "" := by
    intro h
    rw [h, pySplit_empty] at hq
    exact List.noConfusion hq
  simp only [verify_auth_header, Option.getD_some]
  rw [if_neg h0, hq]
  simp [hb, ht]

/-- Auxiliary: any header that is not well-formed bearer is answered 401
(absent, empty, wrong part count, or wrong scheme). -/
lemma verify_401_of_not_wf (hdr : Option String) (key : String)
    (hwf : ¬ wellFormedBearer hdr) :
    ∃ d, verify_auth_header hdr key = .httpError 401 d := by
  by_cases h0 : hdr.getD "" = ""
  · refine ⟨"Missing Authorization header", ?_⟩
    simp only [verify_auth_header]
    rw [if_pos h0]
  · refine ⟨"Invalid Authorization header", ?_⟩
    simp only [verify_auth_header]
    rw [if_neg h0]
    rcases hq : pySplit (hdr.getD "") with _ | ⟨s, rest⟩
    · rfl
    · rcases rest with _ | ⟨t, rest2⟩
      · rfl
      · rcases rest2 with _ | ⟨u, rest3⟩
        · by_cases hb : pyLower s = "bearer"
          · exact absurd ⟨s, t, hq, hb⟩ hwf
          · simp [hb]
        · rfl

/-- Auxiliary: a header that does not split into exactly two parts is not
well-formed bearer. -/
lemma not_wf_of_parts (hdr : Option String)
    (h : (pySplit (hdr.getD "")).length ≠ 2) : ¬ wellFormedBearer hdr := by
  rintro ⟨s, t, hq, -⟩
  rw [hq] at h
  exact h rfl

/-- Claim C3: the Auth Gate answers 401 when the Authorization header is
absent or not of the form `Bearer <token>` (scheme matched
case-insensitively, exactly two whitespace-separated parts), 403 when the
header is well-formed but the token differs from the configured credential,
and accepts — returning control with the token — when the token equals the
credential. -/
theorem auth_gate_trichotomy (hdr : Option String) (key : String) :
    (¬ wellFormedBearer hdr → ∃ d, verify_auth_header hdr key = .httpError 401 d) ∧
    (∀ s t, pySplit (hdr.getD "") = [s, t] → pyLower s = "bearer" → t ≠ key →
      verify_auth_header hdr key = .httpError 403 "Invalid API key") ∧
    (∀ s t, pySplit (hdr.getD "") = [s, t] → pyLower s = "bearer" → t = key →
      verify_auth_header hdr key = .ok t) := by
  refine ⟨verify_401_of_not_wf hdr key, ?_, ?_⟩
  · intro s t hq hb ht
    cases hdr with
    | none => rw [Option.getD_none, pySplit_empty] at hq; exact List.noConfusion hq
    | some h => exact verify_403_of h key s t hq hb ht
  · intro s t hq hb ht
    cases hdr with
    | none => rw [Option.getD_none, pySplit_empty] at hq; exact List.noConfusion hq
    | some h => exact verify_ok_of h key s t hq hb ht

/-- Witness for C3: the three gate outcomes at concrete inputs — a
non-bearer header is answered 401, a wrong token 403, and the matching token
is accepted. -/
theorem auth_gate_trichotomy_witness :
    (∃ d, verify_auth_header (some "Token abc") "abc" = .httpError 401 d) ∧
    verify_auth_header (some "Bearer wrong") "right" = .httpError 403 "Invalid API key" ∧
    verify_auth_header (some "Bearer right") "right" = .ok "right" := by
  refine ⟨(auth_gate_trichotomy (some "Token abc") "abc").1 ?_,
    (auth_gate_trichotomy (some "Bearer wrong") "right").2.1 "Bearer" "wrong" (by decide) (by decide) (by decide),
    (auth_gate_trichotomy (some "Bearer right") "right").2.2 "Bearer" "right" (by decide) (by decide) rfl⟩
  rintro ⟨s, t, hq, hb⟩
  have h2 : pySplit ((some "Token abc").getD "") = ["Token", "abc"] := by decide
  rw [h2] at hq
  injection hq with hs hrest
  subst hs
  exact absurd hb (by decide)

/-- Claim C10: the Auth Gate matches the bearer scheme case-insensitively and
requires exactly two whitespace-separated parts: a header splitting into a
scheme that lowercases to `bearer` and the configured credential is accepted,
and any header with a different part count is rejected with 401. -/
theorem bearer_scheme_case_insensitive (hdr key s t : String) :
    (pySplit hdr = [s, t] → pyLower s = "bearer" → t = key →
      verify_auth_header (some hdr) key = .ok t) ∧
    ((pySplit hdr).length ≠ 2 →
      ∃ d, verify_auth_header (some hdr) key = .httpError 401 d) := by
  constructor
  · exact verify_ok_of hdr key s t
  · intro hl
    exact verify_401_of_not_wf (some hdr) key (not_wf_of_parts (some hdr) hl)

/-- Witness for C10: `bearer` and `BEARER` schemes are accepted with the
matching token, and a three-part header is rejected with 401. -/
theorem bearer_scheme_case_insensitive_witness :
    verify_auth_header (some "bearer sk1") "sk1" = .ok "sk1" ∧
    verify_auth_header (some "BEARER sk1") "sk1" = .ok "sk1" ∧
    (∃ d, verify_auth_header (some "Bearer a b") "a" = .httpError 401 d) :=
  ⟨(bearer_scheme_case_insensitive "bearer sk1" "sk1" "bearer" "sk1").1 (by decide) (by decide) rfl,
   (bearer_scheme_case_insensitive "BEARER sk1" "sk1" "BEARER" "sk1").1 (by decide) (by decide) rfl,
   (bearer_scheme_case_insensitive "Bearer a b" "a" "x" "y").2 (by decide)⟩

/-- Claim C2 (code bug): the bearer check does NOT run on every Message
Endpoint request.  With no Authorization header — which the gate itself
answers 401 — the santa-clara and youtube-to-mp3 `POST /messages` handlers
still hand the request to the transport's session logic, because their
mounted `messages_endpoint` never calls `verify_auth_header`; the math and
youtube-transcript handlers, and every backend's `GET /sse` handler, reject
the same request before any session logic. -/
theorem messages_endpoint_bypasses_auth (apiKey : String) :
    messages_endpoint .santaClara apiKey none = .reachedSessionLogic ∧
    messages_endpoint .ytToMp3 apiKey none = .reachedSessionLogic ∧
    verify_auth_header none apiKey = .httpError 401 "Missing Authorization header" ∧
    messages_endpoint .math apiKey none = .rejected 401 "Missing Authorization header" ∧
    messages_endpoint .ytTranscript apiKey none = .rejected 401 "Missing Authorization header" ∧
    sse_endpoint .santaClara apiKey none = .rejected 401 "Missing Authorization header" ∧
    sse_endpoint .ytToMp3 apiKey none = .rejected 401 "Missing Authorization header" :=
  ⟨rfl, rfl, rfl, rfl, rfl, rfl, rfl⟩

/-- Claim C1 (code bug): only the santa-clara and youtube-to-mp3 stream
handlers run the dispatch loop.  On a session that receives the envelope
`{method: list_tools, id: 1}`, their streams emit the initial endpoint event
followed by the response envelope with id 1 carrying the declared catalog;
the math and youtube-transcript streams emit the endpoint event and then
nothing at all — their handlers never start a dispatcher, so no response
with id 1 ever appears. -/
theorem sse_stream_dispatch_gap (o : Oracles) (path : String) (args : Args) :
    sseStreamEvents .math o path [⟨"list_tools", "", args, 1⟩] = [.endpointEvent path] ∧
    sseStreamEvents .ytTranscript o path [⟨"list_tools", "", args, 1⟩] = [.endpointEvent path] ∧
    sseStreamEvents .santaClara o path [⟨"list_tools", "", args, 1⟩]
      = [.endpointEvent path, .resultEnvelope 1 (catalogValue .santaClara)] ∧
    sseStreamEvents .ytToMp3 o path [⟨"list_tools", "", args, 1⟩]
      = [.endpointEvent path, .resultEnvelope 1 (catalogValue .ytToMp3)] :=
  ⟨rfl, rfl, rfl, rfl⟩

/-- Auxiliary: `dispatchOne` on a `call_tool` envelope reduces to the
collaborator call. -/
lemma dispatchOne_call_tool (b : Backend) (o : Oracles) (name : String)
    (args : Args) (i : Int) :
    dispatchOne b o ⟨"call_tool", name, args, i⟩ =
      match call_tool b o name args with
      | .ok content => .resultEnvelope i (contentValue content)
      | .error msg => .errorEnvelope i msg := rfl

/-- Claim C4: invoking `call_tool` with a name outside the backend's declared
catalog fails with an error message that contains the unknown name verbatim,
and the dispatcher relays that message unchanged inside an error envelope
with the request's correlation id. -/
theorem unknown_tool_descriptive_error (b : Backend) (o : Oracles) (name : String)
    (args : Args) (i : Int)
    (h : name ∉ (list_tools b).map Tool.name) :
    ∃ msg, call_tool b o name args = .error msg ∧ containsSubstr msg name ∧
      dispatchOne b o ⟨"call_tool", name, args, i⟩ = .errorEnvelope i msg := by
  cases b with
  | math =>
    simp only [list_tools, List.map_cons, List.map_nil, List.mem_cons,
      List.not_mem_nil, or_false, not_or] at h
    have hcall : call_tool .math o name args = .error ("Unknown tool: " ++ name) := by
      simp [call_tool, callToolMath, h.1, h.2]
    exact ⟨"Unknown tool: " ++ name, hcall,
      ⟨"Unknown tool: ", "", by rw [String.append_empty]⟩,
      by rw [dispatchOne_call_tool, hcall]⟩
  | santaClara =>
    simp only [list_tools, List.map_cons, List.map_nil, List.mem_cons,
      List.not_mem_nil, or_false, not_or] at h
    have hcall : call_tool .santaClara o name args = .error ("Unknown tool: " ++ name) := by
      simp [call_tool, callToolSantaClara, h]
    exact ⟨"Unknown tool: " ++ name, hcall,
      ⟨"Unknown tool: ", "", by rw [String.append_empty]⟩,
      by rw [dispatchOne_call_tool, hcall]⟩
  | ytTranscript =>
    simp only [list_tools, List.map_cons, List.map_nil, List.mem_cons,
      List.not_mem_nil, or_false, not_or] at h
    have hcall : call_tool .ytTranscript o name args
        = .error ("Error: " ++ ("Unknown tool: " ++ name)) := by
      simp [call_tool, callToolYtTranscript, h.1, h.2]
    refine ⟨"Error: " ++ ("Unknown tool: " ++ name), hcall,
      ⟨"Error: Unknown tool: ", "", ?_⟩,
      by rw [dispatchOne_call_tool, hcall]⟩
    rw [String.append_empty]
    rfl
  | ytToMp3 =>
    simp only [list_tools, List.map_cons, List.map_nil, List.mem_cons,
      List.not_mem_nil, or_false, not_or] at h
    have hcall : call_tool .ytToMp3 o name args
        = .error ("❌ Error: " ++ ("Unknown tool: " ++ name) ++
          "\n\nTroubleshooting:\n- Verify the YouTube URL is correct\n- Check if video is public (not private/deleted)\n- Ensure video has not been region-locked\n- Try a different video to test\n") := by
      simp [call_tool, callToolYtToMp3, h]
    refine ⟨_, hcall, ⟨"❌ Error: Unknown tool: ",
      "\n\nTroubleshooting:\n- Verify the YouTube URL is correct\n- Check if video is public (not private/deleted)\n- Ensure video has not been region-locked\n- Try a different video to test\n", ?_⟩,
      by rw [dispatchOne_call_tool, hcall]⟩
    rfl

/-- Witness for C4: a concrete unknown tool name on the youtube-transcript
backend produces an error whose message contains the name, relayed by the
dispatcher under the request's id. -/
theorem unknown_tool_descriptive_error_witness :
    ∃ msg, call_tool .ytTranscript defaultOracles "bogus" [] = .error msg ∧
      containsSubstr msg "bogus" ∧
      dispatchOne .ytTranscript defaultOracles ⟨"call_tool", "bogus", [], 7⟩
        = .errorEnvelope 7 msg :=
  unknown_tool_descriptive_error .ytTranscript defaultOracles "bogus" [] 7 (by decide)

/-- Claim C5: `list_tools` is pure and always succeeds — wherever a
`list_tools` request sits in a session's inbound sequence (i.e. regardless of
any prior calls), the dispatcher answers it with the same static catalog; and
each backend's catalog is the fixed declared one. -/
theorem list_tools_static (b : Backend) (o : Oracles) (pre : List Envelope) (i : Int) :
    (dispatchLoop b o (pre ++ [⟨"list_tools", "", [], i⟩])).getLast?
      = some (.resultEnvelope i (catalogValue b)) ∧
    (list_tools .math).map Tool.name = ["calculate", "factorial"] ∧
    (list_tools .santaClara).map Tool.name = ["get_property_info"] ∧
    (list_tools .ytTranscript).map Tool.name = ["get_transcript", "list_available_languages"] ∧
    (list_tools .ytToMp3).map Tool.name = ["youtube_to_mp3"] := by
  refine ⟨?_, rfl, rfl, rfl, rfl⟩
  have hmap : dispatchLoop b o (pre ++ [⟨"list_tools", "", [], i⟩])
      = dispatchLoop b o pre ++ [dispatchOne b o ⟨"list_tools", "", [], i⟩] := by
    simp [dispatchLoop]
  rw [hmap, List.getLast?_concat]
  rfl

/-- Claim C6: whenever the tool-execution collaborator fails a `call_tool`
request, the dispatcher converts the failure into an error envelope carrying
the request's correlation id, and the dispatch loop keeps processing the
messages before and after it unchanged — one bad request never terminates
the session's loop. -/
theorem collaborator_error_becomes_envelope (b : Backend) (o : Oracles)
    (pre post : List Envelope) (name : String) (args : Args) (i : Int) (msg : String)
    (h : call_tool b o name args = .error msg) :
    dispatchLoop b o (pre ++ ⟨"call_tool", name, args, i⟩ :: post)
      = dispatchLoop b o pre ++ .errorEnvelope i msg :: dispatchLoop b o post := by
  simp only [dispatchLoop, List.map_append, List.map_cons]
  rw [dispatchOne_call_tool, h]

/-- Witness for C6: a failing factorial call (missing `n`) in the middle of a
math session becomes an error envelope with its id while the surrounding
`list_tools` requests are still served. -/
theorem collaborator_error_becomes_envelope_witness :
    dispatchLoop .math defaultOracles
        ([⟨"list_tools", "", [], 1⟩] ++ ⟨"call_tool", "factorial", [], 2⟩ :: [⟨"list_tools", "", [], 3⟩])
      = dispatchLoop .math defaultOracles [⟨"list_tools", "", [], 1⟩] ++
          .errorEnvelope 2 "n is required" :: dispatchLoop .math defaultOracles [⟨"list_tools", "", [], 3⟩] :=
  collaborator_error_becomes_envelope .math defaultOracles
    [⟨"list_tools", "", [], 1⟩] [⟨"list_tools", "", [], 3⟩] "factorial" [] 2 "n is required" rfl

/-- Claim C7: `GET /health` ignores the Authorization header entirely (no
auth), always reports the liveness status `healthy` and the backend's service
name, and reports the credential as configured exactly when it differs from
the documented default `default-api-key`. -/
theorem health_check_no_auth (b : Backend) (o : Oracles) (apiKey : String)
    (h1 h2 : Option String) :
    health_check b o apiKey h1 = health_check b o apiKey h2 ∧
    (health_check b o apiKey h1).status = "healthy" ∧
    ((health_check b o apiKey h1).api_key_configured = true ↔ apiKey ≠ "default-api-key") ∧
    (health_check .math o apiKey h1).service = "math" ∧
    (health_check .santaClara o apiKey h1).service = "santa-clara" ∧
    (health_check .ytTranscript o apiKey h1).service = "youtube-transcript" ∧
    (health_check .ytToMp3 o apiKey h1).service = "youtube-to-mp3" := by
  refine ⟨?_, ?_, ?_, rfl, rfl, rfl, rfl⟩
  · cases b <;> rfl
  · cases b <;> rfl
  · cases b <;> simp [health_check]

/-- Witness for C7: the response is identical with and without a credential
on the request, and a non-default key reports `api_key_configured = true`. -/
theorem health_check_no_auth_witness :
    health_check .ytToMp3 defaultOracles "prod-key" (some "Bearer junk")
      = health_check .ytToMp3 defaultOracles "prod-key" none ∧
    (health_check .math defaultOracles "prod-key" none).api_key_configured = true :=
  ⟨(health_check_no_auth .ytToMp3 defaultOracles "prod-key" (some "Bearer junk") none).1,
   (health_check_no_auth .math defaultOracles "prod-key" none none).2.2.1.mpr (by decide)⟩

/-- Claim C8: in the youtube-transcript backend, the result of
`call_tool("get_transcript", ...)` is independent of the
`include_timestamps` argument — for any collaborator behaviour and any two
argument mappings agreeing on every other key, the results are identical —
even though the tool's declared input schema advertises
`include_timestamps` as a supported boolean parameter. -/
theorem include_timestamps_ignored (o : Oracles) (a1 a2 : Args)
    (h : ∀ k, k ≠ "include_timestamps" → lookupField a1 k = lookupField a2 k) :
    call_tool .ytTranscript o "get_transcript" a1
      = call_tool .ytTranscript o "get_transcript" a2 ∧
    ∃ t ∈ list_tools .ytTranscript, t.name = "get_transcript" ∧
      advertisesBoolParam t "include_timestamps" := by
  constructor
  · have hv := h "video_url" (by decide)
    have hl := h "language" (by decide)
    simp [call_tool, callToolYtTranscript, pyGet, pyGetD, hv, hl]
  · refine ⟨_, List.mem_cons_self _ _, rfl, ?_⟩
    exact ⟨_, rfl, rfl⟩

/-- Witness for C8: flipping `include_timestamps` between `true` and `false`
on a concrete request leaves the result unchanged. -/
theorem include_timestamps_ignored_witness :
    call_tool .ytTranscript defaultOracles "get_transcript"
        [("video_url", .str "dQw4w9WgXcQ"), ("include_timestamps", .bool true)]
      = call_tool .ytTranscript defaultOracles "get_transcript"
        [("video_url", .str "dQw4w9WgXcQ"), ("include_timestamps", .bool false)] := by
  refine (include_timestamps_ignored defaultOracles _ _ ?_).1
  intro k hk
  by_cases hv : "video_url" = k
  · simp [lookupField, List.find?, hv]
  · have h1 : ("video_url" == k) = false := beq_eq_false_iff_ne.mpr hv
    have h2 : ("include_timestamps" == k) = false :=
      beq_eq_false_iff_ne.mpr (fun hh => hk hh.symm)
    simp [lookupField, List.find?, h1, h2]

/-- Auxiliary: the product accumulated over `[2, ..., k+1]` is `(k+1)!`. -/
lemma factorialLoop_prod (k : Nat) :
    (List.range' 2 k).foldl (fun r i => r * i) 1 = Nat.factorial (k + 1) := by
  induction k with
  | zero => rfl
  | succ n ih =>
    rw [List.range'_concat, List.foldl_append, ih]
    simp [Nat.factorial_succ]
    ring

/-- Auxiliary: for a positive bound the source's loop computes the
factorial. -/
lemma factorialLoop_eq (m : Nat) (hm : 1 ≤ m) : factorialLoop m = Nat.factorial m := by
  unfold factorialLoop
  rw [factorialLoop_prod]
  congr 1
  omega

/-- Counterexample to claim C9 as stated: `n = true` is a JSON boolean, not
an integer, yet `call_tool("factorial", ...)` does not raise — Python's
`isinstance(True, int)` holds, so the call succeeds with the text
`Factorial of True = 1`. -/
theorem factorial_accepts_boolean :
    call_tool .math defaultOracles "factorial" [("n", .bool true)]
      = .ok [⟨"text", "Factorial of True = 1"⟩] := rfl

/-- Claim C9 as amended: a factorial `call_tool` request on the math backend
errors when `n` is missing/null, neither an integer nor a boolean, a negative
integer, or an integer above 100; on an integer `0 ≤ n ≤ 100` it returns the
text `Factorial of n = n!`; and (the amendment) a boolean `n` is accepted,
because Python treats `bool` as `int`, yielding `Factorial of True = 1` or
`Factorial of False = 1`. -/
theorem factorial_tool_amended (o : Oracles) (args : Args) (z : Int) (c : Bool) :
    (pyGet args "n" = .null →
      call_tool .math o "factorial" args = .error "n is required") ∧
    ((∀ w, pyGet args "n" ≠ .int w) → (∀ w, pyGet args "n" ≠ .bool w) →
      pyGet args "n" ≠ .null →
      call_tool .math o "factorial" args = .error "n must be an integer") ∧
    (pyGet args "n" = .int z → z < 0 →
      call_tool .math o "factorial" args = .error "Factorial requires a non-negative integer") ∧
    (pyGet args "n" = .int z → 100 < z →
      call_tool .math o "factorial" args = .error "Factorial input must be <= 100") ∧
    (pyGet args "n" = .int z → 0 ≤ z → z ≤ 100 →
      call_tool .math o "factorial" args =
        .ok [⟨"text", "Factorial of " ++ toString z ++ " = " ++ toString (Nat.factorial z.toNat)⟩]) ∧
    (pyGet args "n" = .bool c →
      call_tool .math o "factorial" args =
        .ok [⟨"text", "Factorial of " ++ pyStr (.bool c) ++ " = 1"⟩]) := by
  refine ⟨?_, ?_, ?_, ?_, ?_, ?_⟩
  · intro h
    simp [call_tool, callToolMath, h, isNull]
  · intro hz hc h0
    rcases hv : pyGet args "n" with _ | w | w | w | w | w | w
    · exact absurd hv h0
    · exact absurd hv (hc w)
    · exact absurd hv (hz w)
    · simp [call_tool, callToolMath, hv, isNull, isIntInstance]
    · simp [call_tool, callToolMath, hv, isNull, isIntInstance]
    · simp [call_tool, callToolMath, hv, isNull, isIntInstance]
    · simp [call_tool, callToolMath, hv, isNull, isIntInstance]
  · intro h hneg
    simp [call_tool, callToolMath, h, isNull, isIntInstance, valueAsInt, factorial,
      hneg]
  · intro h hgt
    have hneg : ¬ z < 0 := by omega
    simp [call_tool, callToolMath, h, isNull, isIntInstance, valueAsInt, factorial,
      hneg, hgt]
  · intro h h0 h100
    have hneg : ¬ z < 0 := by omega
    have hle : ¬ z > 100 := by omega
    simp [call_tool, callToolMath, h, isNull, isIntInstance, valueAsInt, factorial,
      pyStr, hneg, hle]
    by_cases h01 : z = 0 ∨ z = 1
    · rw [if_pos h01]
      rcases h01 with h01 | h01 <;> subst h01 <;> rfl
    · rw [if_neg h01]
      have h2 : 1 ≤ z.toNat := by omega
      rw [factorialLoop_eq z.toNat h2]
  · intro h
    cases c <;> simp [call_tool, callToolMath, h, isNull, isIntInstance, valueAsInt,
      factorial, pyStr] <;> rfl

/-- Witness for amended C9: `n = 5` yields `Factorial of 5 = 120`. -/
theorem factorial_tool_amended_witness :
    call_tool .math defaultOracles "factorial" [("n", .int 5)]
      = .ok [⟨"text", "Factorial of 5 = 120"⟩] := by
  have h := (factorial_tool_amended defaultOracles [("n", .int 5)] 5 true).2.2.2.2.1
    rfl (by decide) (by decide)
  exact h.trans rfl
